import Mathlib

/-!
Verification of the GMC feed validation engine (`app/main.py`).

The engine's contract begins at "list of normalized records + ordered header
list" (spec §1): parsing of raw bytes (JSON/CSV sniffing, lines 232-248 of
`app/main.py`) is external, so the embedding models `validate_gmc_bytes`
from the point where `parsed_headers` and `records` are in hand (lines
250-346).  Records are string-to-string mappings (Python dicts), modelled as
association lists with distinct keys; `r.get(k, "")` is `recGet`.

The global `GMC_SPEC` is loaded from `specs/gmc_spec.json`, which is not part
of the repository snapshot; the engine only reads the per-profile field-name
sets, so the artifact is modelled as an explicit `profiles` parameter
(an association list from profile name to the list of field names), plus a
concrete instance modelled from the spec for evaluations.

Python-semantics notes:
* `str.strip` / `str.lower` are modelled on ASCII data (`pyStrip`,
  `pyLower`); `str.replace` with single-character arguments is a per-character
  map (`replaceChar`).
* `re.match` with `^...$` patterns is a full match, except that `$` also
  matches just before one trailing newline; `pyDollar` captures this.
* CPython `round(x, 4)` on floats is modelled exactly over ℚ with
  round-half-up (`passRate`); no claim below depends on tie-breaking or on
  binary floating-point representation error.
-/

-- ===========================================================
-- String primitives (Python `strip`, `lower`, 1-char `replace`)
-- ===========================================================

/-- Whitespace characters removed by Python `str.strip()` (ASCII range). -/
def pyIsSpace (c : Char) : Bool :=
  c == ' ' || c == '\t' || c == '\n' || c == '\r' || c == '\x0b' || c == '\x0c'

/-- Remove the maximal all-`p` suffix of a list. -/
def dropTrailing (p : Char → Bool) : List Char → List Char
  | [] => []
  | c :: t => if dropTrailing p t = [] ∧ p c then [] else c :: dropTrailing p t

/-- Python `str.strip()` on the character list: remove leading and trailing
whitespace. -/
def stripChars (cs : List Char) : List Char :=
  dropTrailing pyIsSpace (cs.dropWhile pyIsSpace)

/-- Python `str.strip()`. -/
def pyStrip (s : String) : String := ⟨stripChars s.data⟩

/-- `_norm` (main.py line 123): `(v or "").strip()`; the `None` case is the
empty string in the string-valued record model. -/
def _norm (v : String) : String := pyStrip v

/-- The ASCII uppercase/lowercase table used to model Python `str.lower()`. -/
def UPPER_LOWER : List (Char × Char) :=
  [('A', 'a'), ('B', 'b'), ('C', 'c'), ('D', 'd'), ('E', 'e'), ('F', 'f'),
   ('G', 'g'), ('H', 'h'), ('I', 'i'), ('J', 'j'), ('K', 'k'), ('L', 'l'),
   ('M', 'm'), ('N', 'n'), ('O', 'o'), ('P', 'p'), ('Q', 'q'), ('R', 'r'),
   ('S', 's'), ('T', 't'), ('U', 'u'), ('V', 'v'), ('W', 'w'), ('X', 'x'),
   ('Y', 'y'), ('Z', 'z')]

/-- Python `str.lower()` on one character (ASCII). -/
def pyLowerChar (c : Char) : Char :=
  ((UPPER_LOWER.find? (fun p => p.1 == c)).map Prod.snd).getD c

/-- Python `str.lower()` (ASCII). -/
def pyLower (s : String) : String := ⟨s.data.map pyLowerChar⟩

/-- One character of Python `str.replace(a, b)` for single characters. -/
def replace1 (a b c : Char) : Char := if c = a then b else c

/-- Python `str.replace(a, b)` for single characters `a`, `b`. -/
def replaceChar (a b : Char) (s : String) : String :=
  ⟨s.data.map (replace1 a b)⟩

-- ===========================================================
-- Regex cores (main.py lines 98-99), as full-match recognizers
-- ===========================================================

/-- Python `$` semantics: the anchored pattern matches the whole string, or
the whole string minus one trailing newline. -/
def pyDollar (core : List Char → Bool) (s : String) : Bool :=
  core s.data ||
    (match s.data.getLast? with
     | some c => c == '\n' && core s.data.dropLast
     | none => false)

/-- Exactly three ASCII uppercase letters (the `[A-Z]{3}` tail of
`CURRENCY_PRICE_RE`). -/
def currencyTail (cs : List Char) : Bool :=
  match cs with
  | [a, b, c] => a.isUpper && b.isUpper && c.isUpper
  | _ => false

/-- The part of `CURRENCY_PRICE_RE` after the leading `\d+`:
`(\.\d{1,2})?\s[A-Z]{3}`. -/
def currencyAfterInt (cs : List Char) : Bool :=
  match cs with
  | '.' :: rest =>
    let fs := rest.takeWhile Char.isDigit
    (fs.length = 1 ∨ fs.length = 2) &&
      (match rest.dropWhile Char.isDigit with
       | s :: t => pyIsSpace s && currencyTail t
       | [] => false)
  | s :: t => pyIsSpace s && currencyTail t
  | [] => false

/-- Core of `CURRENCY_PRICE_RE = ^\d+(\.\d{1,2})?\s[A-Z]{3}$`. -/
def currencyCore (cs : List Char) : Bool :=
  !(cs.takeWhile Char.isDigit).isEmpty && currencyAfterInt (cs.dropWhile Char.isDigit)

/-- `CURRENCY_PRICE_RE.match(s)` (pattern is fully anchored). -/
def currencyPriceMatch (s : String) : Bool := pyDollar currencyCore s

/-- Core of `ISO_DATE_RE = ^\d{4}-\d{2}-\d{2}$`. -/
def isoDateCore (cs : List Char) : Bool :=
  match cs with
  | [a, b, c, d, '-', e, f, '-', g, h] =>
    a.isDigit && b.isDigit && c.isDigit && d.isDigit &&
      e.isDigit && f.isDigit && g.isDigit && h.isDigit
  | _ => false

/-- `ISO_DATE_RE.match(s)` (pattern is fully anchored). -/
def isoDateMatch (s : String) : Bool := pyDollar isoDateCore s

-- ===========================================================
-- GTIN checksum (main.py lines 126-137)
-- ===========================================================

/-- Numeric value of an ASCII digit character. -/
def charDigit (c : Char) : Nat := c.toNat - 48

/-- The weighted sum loop of `_gtin_checksum_ok`: Python
`for i, n in enumerate(body, start=1): total += n * (3 if i % 2 else 1)`. -/
def gtinSum : Nat → List Nat → Nat
  | _, [] => 0
  | i, n :: t => n * (if i % 2 = 1 then 3 else 1) + gtinSum (i + 1) t

/-- `_gtin_checksum_ok` (main.py lines 126-137).  `digits` keeps the digit
characters of `s`; the length must be 8, 12, 13 or 14; the last digit is the
check digit, the remaining digits are walked in reverse with alternating
weights 3,1 starting at 3.  (Python `str.isdigit` is modelled on ASCII.) -/
def _gtin_checksum_ok (s : String) : Bool :=
  let digits := s.data.filter Char.isDigit
  if digits.length = 8 ∨ digits.length = 12 ∨ digits.length = 13 ∨ digits.length = 14 then
    match (digits.map charDigit).reverse with
    | [] => false
    | check :: bodyRev => decide ((10 - gtinSum 1 bodyRev % 10) % 10 = check)
  else false

/-- Modelled from the spec: the GS1 check-digit algorithm as §4.3 words it
("walking the remaining digits from rightmost to leftmost, alternate
multiplying by 3 and 1 starting with 3"), for comparison with the code's
`_gtin_checksum_ok`.  The flag of `gs1AltSum` is the current weight
(`true` = 3). -/
def gs1AltSum : Bool → List Nat → Nat
  | _, [] => 0
  | b, n :: t => (if b then 3 * n else n) + gs1AltSum (!b) t

/-- Modelled from the spec: GS1 validity per the spec's own wording (§4.3):
strip non-digits, digit count must be 8/12/13/14, rightmost digit is the
check digit, expected check digit is `(10 - (sum mod 10)) mod 10`. -/
def gs1SpecValid (s : String) : Bool :=
  let digits := s.data.filter Char.isDigit
  (digits.length = 8 ∨ digits.length = 12 ∨ digits.length = 13 ∨ digits.length = 14) &&
    (match (digits.map charDigit).reverse with
     | [] => false
     | check :: bodyRev => decide ((10 - gs1AltSum true bodyRev % 10) % 10 = check))

/-- Replace the `i`-th character of `s` by the digit `d`. -/
def flipDigit (s : String) (i : Nat) (d : Nat) : String :=
  ⟨s.data.mapIdx (fun j c => if j = i then Char.ofNat (48 + d) else c)⟩

-- ===========================================================
-- Header normalization (main.py lines 107-121, 158-171)
-- ===========================================================

/-- `HEADER_ALIASES` (main.py lines 107-121). -/
def HEADER_ALIASES : List (String × String) :=
  [("image link", "image_link"),
   ("image-url", "image_link"),
   ("imageurl", "image_link"),
   ("product link", "link"),
   ("product-url", "link"),
   ("producturl", "link"),
   ("price_amount", "price"),
   ("availability_status", "availability"),
   ("sellername", "seller_name"),
   ("seller url", "seller_url"),
   ("sellerurl", "seller_url"),
   ("return policy", "return_policy"),
   ("return window", "return_window")]

/-- The `kk` computation of `normalize_key` (main.py line 159):
`(k or "").strip().lower().replace("-", "_").replace(" ", "_")`. -/
def headerKey (k : String) : String :=
  replaceChar ' ' '_' (replaceChar '-' '_' (pyLower (pyStrip k)))

/-- `normalize_key` (main.py lines 158-160): the `kk` computation, then
`HEADER_ALIASES.get(kk, kk)`. -/
def normalize_key (k : String) : String :=
  ((HEADER_ALIASES.find? (fun p => p.1 == headerKey k)).map Prod.snd).getD (headerKey k)

/-- A record: a Python dict from field name to string value, modelled as an
association list whose keys are distinct; lookups return the first match. -/
def Rec : Type := List (String × String)

/-- `r.get(k, "")` on a record. -/
def recGet (r : List (String × String)) (k : String) : String :=
  (((r.find? (fun p => p.1 == k))).map Prod.snd).getD ""

/-- Python dict insertion: update in place if the key is present, else append. -/
def dictInsert (d : List (String × String)) (k v : String) : List (String × String) :=
  if d.any (fun p => p.1 == k) then
    d.map (fun p => if p.1 == k then (k, v) else p)
  else d ++ [(k, v)]

/-- Build a Python dict from a pair sequence (later values win, first
insertion fixes the position). -/
def dictOfPairs (l : List (String × String)) : List (String × String) :=
  l.foldl (fun d p => dictInsert d p.1 p.2) []

/-- `normalize_record_keys` (main.py lines 165-171) on string-valued records:
`nr[normalize_key(str(k))] = v` for each pair in order.  (The
`additional_image_link` branch only fires for JSON list values, which are
outside the string-valued record model and of the idempotence claim, whose
records have string values.) -/
def normalize_record_keys (r : List (String × String)) : List (String × String) :=
  dictOfPairs (r.map (fun p => (normalize_key p.1, p.2)))

-- ===========================================================
-- Validation data model (main.py lines 19-39)
-- ===========================================================

/-- `Issue` (main.py lines 19-27).  `remediation` is always `[]` and is
omitted. -/
structure Issue where
  row_index : Option Nat
  item_id : Option String
  field : String
  rule_id : String
  severity : String
  message : String
  sample_value : Option String
deriving DecidableEq

/-- `Summary` (main.py lines 29-35).  `top_rules` is never set and is
omitted; `pass_rate` is modelled exactly over ℚ. -/
structure Summary where
  items_total : Nat
  items_with_errors : Nat
  items_with_warnings : Nat
  items_with_opportunities : Nat
  pass_rate : ℚ
deriving DecidableEq

/-- `ValidateResponse` (main.py lines 37-39). -/
structure ValidateResponse where
  summary : Summary
  issues : List Issue
deriving DecidableEq

-- ===========================================================
-- Validation core (main.py lines 91-94, 210-346)
-- ===========================================================

/-- `GMC_AVAIL` (main.py line 92). -/
def GMC_AVAIL : List String := ["in_stock", "out_of_stock", "preorder", "backorder"]

/-- `GMC_GENDER` (main.py line 93). -/
def GMC_GENDER : List String := ["male", "female", "unisex"]

/-- `GMC_AGE` (main.py line 94). -/
def GMC_AGE : List String := ["newborn", "infant", "toddler", "kids", "adult"]

/-- `_push_issue` (main.py lines 210-225) as the issue it appends:
`row_index` is always an integer at every call site, `item_id` is
`rid or None`, `sample_value` is `str(sample)` (every call passes a string).
The `error_rows` set mutated by the Python function is never read when the
summary is built (line 333 recomputes it from `issues`), so it is not
modelled. -/
def _push_issue (row : Nat) (itemId fieldName ruleId severity message sample : String) : Issue :=
  { row_index := some row
    item_id := if itemId = "" then none else some itemId
    field := fieldName
    rule_id := ruleId
    severity := severity
    message := message
    sample_value := some sample }

/-- The `req` closure (main.py lines 265-267): an error issue when the
stripped field value is empty. -/
def reqCheck (idx : Nat) (rid : String) (r : List (String × String))
    (fieldName code msg : String) : List Issue :=
  if _norm (recGet r fieldName) = "" then
    [_push_issue idx rid fieldName code "error" msg ""]
  else []

/-- A `for f in fields: req(f, code, f + suffix)` block. -/
def reqBlock (idx : Nat) (rid : String) (r : List (String × String))
    (code suffix : String) (fields : List String) : List Issue :=
  match fields with
  | [] => []
  | f :: t => reqCheck idx rid r f code (f ++ suffix) ++ reqBlock idx rid r code suffix t

/-- Price format check (main.py lines 283-285). -/
def priceIssues (idx : Nat) (rid : String) (r : List (String × String)) : List Issue :=
  if _norm (recGet r "price") ≠ "" ∧ ¬ currencyPriceMatch (recGet r "price") then
    [_push_issue idx rid "price" "GMC-200" "error"
      "price must be \"<amount> <ISO4217>\", e.g., \"15.00 USD\"." (recGet r "price")]
  else []

/-- Availability enum check (main.py lines 288-291). -/
def availEnumIssues (idx : Nat) (rid av : String) : List Issue :=
  if av ≠ "" ∧ av ∉ GMC_AVAIL then
    [_push_issue idx rid "availability" "GMC-210" "error"
      "availability must be in_stock, out_of_stock, preorder, or backorder." av]
  else []

/-- Preorder availability_date check (main.py lines 293-297). -/
def preorderIssues (idx : Nat) (rid av : String) (r : List (String × String)) : List Issue :=
  if av = "preorder" then
    let ad := recGet r "availability_date"
    if ad = "" ∨ ¬ isoDateMatch ad then
      [_push_issue idx rid "availability_date" "GMC-211" "error"
        "availability_date (ISO 8601) required when availability=preorder." ad]
    else []
  else []

/-- GTIN / brand+mpn check (main.py lines 300-310). -/
def gtinIssues (idx : Nat) (rid : String) (r : List (String × String)) : List Issue :=
  let gtin := _norm (recGet r "gtin")
  let brand := _norm (recGet r "brand")
  let mpn := _norm (recGet r "mpn")
  if gtin ≠ "" then
    if ¬ _gtin_checksum_ok gtin then
      [_push_issue idx rid "gtin" "GMC-220" "warning" "GTIN checksum appears invalid." gtin]
    else []
  else
    if ¬ (brand ≠ "" ∧ mpn ≠ "") then
      [_push_issue idx rid "brand/mpn" "GMC-221" "error" "Provide GTIN or brand + mpn."
        (brand ++ "|" ++ mpn)]
    else []

/-- Apparel enum checks (main.py lines 313-321). -/
def apparelEnumIssues (idx : Nat) (rid : String) (r : List (String × String)) : List Issue :=
  (let g := pyLower (recGet r "gender")
   if g ≠ "" ∧ g ∉ GMC_GENDER then
     [_push_issue idx rid "gender" "GMC-230" "error" "gender must be male/female/unisex." g]
   else []) ++
  (let ag := pyLower (recGet r "age_group")
   if ag ≠ "" ∧ ag ∉ GMC_AGE then
     [_push_issue idx rid "age_group" "GMC-231" "error"
       "age_group must be newborn/infant/toddler/kids/adult." ag]
   else [])

/-- Local-inventory quantity recommendation (main.py lines 324-327). -/
def quantityIssues (idx : Nat) (rid : String) (r : List (String × String)) : List Issue :=
  if _norm (recGet r "quantity") = "" then
    [_push_issue idx rid "quantity" "GMC-240" "warning"
      "quantity is recommended for local inventory." ""]
  else []

/-- The per-row checks of `validate_gmc_bytes` (main.py lines 261-327), in
emission order. -/
def rowIssues (profile : String) (idx : Nat) (r : List (String × String)) : List Issue :=
  let rid := recGet r "id"
  let av := pyLower (recGet r "availability")
  (if profile = "general" ∨ profile = "apparel" then
    reqBlock idx rid r "GMC-100" " is required."
      ["id", "title", "description", "link", "image_link", "availability", "price"]
   else []) ++
  (if profile = "apparel" then
    reqBlock idx rid r "GMC-101" " is required for apparel."
      ["item_group_id", "gender", "age_group", "color", "size"]
   else []) ++
  (if profile = "local_inventory" then
    reqBlock idx rid r "GMC-102" " is required for local_inventory."
      ["store_code", "id", "price", "availability"]
   else []) ++
  priceIssues idx rid r ++
  availEnumIssues idx rid av ++
  preorderIssues idx rid av r ++
  gtinIssues idx rid r ++
  (if profile = "apparel" then apparelEnumIssues idx rid r else []) ++
  (if profile = "local_inventory" then quantityIssues idx rid r else [])

/-- The allowed field-name list of a profile in the specification artifact:
`GMC_SPEC.get("profiles", {}).get(profile, [])`, keeping only the `name`
fields, which are all `_bad_headers` reads. -/
def profileFields (profiles : List (String × List String)) (p : String) : List String :=
  ((profiles.find? (fun x => x.1 == p)).map Prod.snd).getD []

/-- `_bad_headers` (main.py lines 227-229): headers not in the allowed set of
the active profile, in order. -/
def _bad_headers (profiles : List (String × List String)) (headers : List String)
    (profile : String) : List String :=
  headers.filter (fun h => ¬ (profileFields profiles profile).contains h)

/-- The feed-level issue for one disallowed header (main.py lines 255-257). -/
def headerIssue (profile h : String) : Issue :=
  _push_issue 0 "" h "GMC-001" "error"
    ("Header \"" ++ h ++ "\" is not allowed for profile \"" ++ profile ++ "\".") h

/-- Profile-string resolution (main.py line 251):
`(profile or "general").strip().lower()`. -/
def resolveProfile (p : String) : String :=
  pyLower (pyStrip (if p = "" then "general" else p))

/-- All issues generated during evaluation, uncapped: header-allowlist issues
first (main.py lines 255-257), then the per-row issues in row order
(lines 261-327), for an already-resolved profile string. -/
def allIssuesCore (profiles : List (String × List String)) (headers : List String)
    (records : List (List (String × String))) (profile : String) : List Issue :=
  ((_bad_headers profiles headers profile).map (headerIssue profile)) ++
    (records.enum.map (fun p => rowIssues profile p.1 p.2)).flatten

/-- All issues generated by `validate_gmc_bytes`, uncapped. -/
def allIssues (profiles : List (String × List String)) (headers : List String)
    (records : List (List (String × String))) (profileArg : String) : List Issue :=
  allIssuesCore profiles headers records (resolveProfile profileArg)

/-- `sum(1 for i in issues if i.severity == sev)` (main.py lines 330-332). -/
def countSeverity (sev : String) (issues : List Issue) : Nat :=
  issues.countP (fun i => i.severity == sev)

/-- `len({i.row_index for i in issues if i.severity == "error" and
i.row_index is not None})` (main.py line 333). -/
def uniqueErrorRows (issues : List Issue) : Nat :=
  ((issues.filterMap
      (fun i => if i.severity == "error" then i.row_index else none)).dedup).length

/-- `pass_rate` (main.py line 334): `0.0` when there are no rows, otherwise
`round((total_rows - unique_error_rows) / total_rows, 4)`, computed exactly
over ℚ with round-half-up (see the header comment). -/
def passRate (totalRows unique : Nat) : ℚ :=
  if totalRows = 0 then 0
  else mkRat ((20000 * (totalRows - unique) + totalRows) / (2 * totalRows) : Nat) 10000

/-- The aggregation step (main.py lines 329-334, 338-344). -/
def mkSummary (totalRows : Nat) (issues : List Issue) : Summary :=
  { items_total := totalRows
    items_with_errors := countSeverity "error" issues
    items_with_warnings := countSeverity "warning" issues
    items_with_opportunities := countSeverity "opportunity" issues
    pass_rate := passRate totalRows (uniqueErrorRows issues) }

/-- `validate_gmc_bytes` (main.py lines 250-346) from the engine boundary:
parsed header list and normalized records in, capped issue list and summary
out.  `profiles` stands for the per-profile field-name sets of the global
`GMC_SPEC` artifact. -/
def validate_gmc_bytes (profiles : List (String × List String)) (headers : List String)
    (records : List (List (String × String))) (profileArg : String) : ValidateResponse :=
  let issues := allIssues profiles headers records profileArg
  { summary := mkSummary records.length issues
    issues := issues.take 1000 }

-- ===========================================================
-- Spec-side auxiliary notions (for stating claims)
-- ===========================================================

/-- Number of distinct `row_index` values carrying at least one issue of the
given severity (the spec's "row-distinct count" reading of the summary
fields). -/
def rowsWithSeverity (sev : String) (issues : List Issue) : Nat :=
  ((issues.filterMap
      (fun i => if i.severity == sev then i.row_index else none)).dedup).length

/-- Modelled from the spec: a basic ISO-8601 date-time pattern
`YYYY-MM-DDTHH:MM:SS` (spec §4.3 says `availability_date` may "match an
ISO-8601 date or date-time pattern"). -/
def specIsoDateTimeCore (cs : List Char) : Bool :=
  match cs with
  | [y1, y2, y3, y4, '-', m1, m2, '-', d1, d2, 'T', h1, h2, ':', n1, n2, ':', s1, s2] =>
    y1.isDigit && y2.isDigit && y3.isDigit && y4.isDigit && m1.isDigit && m2.isDigit &&
      d1.isDigit && d2.isDigit && h1.isDigit && h2.isDigit && n1.isDigit && n2.isDigit &&
      s1.isDigit && s2.isDigit
  | _ => false

/-- Modelled from the spec: full-string ISO-8601 date-time recognizer. -/
def specIsoDateTime (s : String) : Bool := specIsoDateTimeCore s.data

/-- The profile-independent subset of the per-row checks (price format,
availability enum, preorder date, GTIN/brand+mpn): what `rowIssues` reduces
to on a profile name that is none of `general`/`apparel`/`local_inventory`. -/
def genericRowIssues (idx : Nat) (r : List (String × String)) : List Issue :=
  let rid := recGet r "id"
  let av := pyLower (recGet r "availability")
  priceIssues idx rid r ++ availEnumIssues idx rid av ++
    preorderIssues idx rid av r ++ gtinIssues idx rid r

-- ===========================================================
-- Concrete records used to evaluate the claims
-- ===========================================================

/-- The spec §8 "general profile, minimal valid row" record. -/
def cleanRec : List (String × String) :=
  [("id", "SKU1"), ("title", "T"), ("description", "D"), ("link", "https://x.com"),
   ("image_link", "https://x.com/i.jpg"), ("availability", "in_stock"),
   ("price", "9.99 USD"), ("gtin", "036000291452")]

/-- A record carrying only an `id`: six required base fields are empty and it
has neither GTIN nor brand+mpn, so the general profile emits seven errors on
this single row. -/
def onlyIdRec : List (String × String) := [("id", "x")]

/-- A preorder record whose `availability_date` holds an ISO-8601 date-time
(not a plain date). -/
def preorderDateTimeRec : List (String × String) :=
  [("availability", "preorder"), ("availability_date", "2025-01-01T00:00:00")]

-- ===========================================================
-- Concrete specification artifact (modelled from the spec)
-- ===========================================================

/-- Modelled from the spec: the `specs/gmc_spec.json` artifact is absent from
the repository snapshot, so its per-profile field-name sets are modelled from
spec §4.3/§6/§8 (base fields of the general profile, apparel variant fields,
local-inventory fields).  Only field names matter to the engine. -/
def GMC_PROFILES_model : List (String × List String) :=
  [("general",
    ["id", "title", "description", "link", "image_link", "additional_image_link",
     "mobile_link", "availability", "availability_date", "price", "sale_price",
     "sale_price_effective_date", "gtin", "brand", "mpn", "condition",
     "item_group_id", "identifier_exists"]),
   ("apparel",
    ["id", "title", "description", "link", "image_link", "additional_image_link",
     "mobile_link", "availability", "availability_date", "price", "sale_price",
     "sale_price_effective_date", "gtin", "brand", "mpn", "condition",
     "item_group_id", "identifier_exists", "gender", "age_group", "color",
     "size", "pattern", "material"]),
   ("local_inventory",
    ["store_code", "id", "price", "availability", "quantity", "pickup_method",
     "pickup_sla"])]

-- ===========================================================
-- Helper lemmas: GTIN checksum
-- ===========================================================

/-- The code's weighted sum started at counter `i` is the spec's alternating
sum started at weight `3` iff `i` is odd. -/
theorem gtinSum_eq_alt (l : List Nat) (i : Nat) :
    gtinSum i l = gs1AltSum (decide (i % 2 = 1)) l := by
  induction l generalizing i with
  | nil => rfl
  | cons n t ih =>
    unfold gtinSum gs1AltSum
    rw [ih (i + 1)]
    have h2 : (decide ((i + 1) % 2 = 1)) = !(decide (i % 2 = 1)) := by
      rcases Nat.mod_two_eq_zero_or_one i with h | h <;> simp [Nat.add_mod, h]
    rw [h2]
    rcases Nat.mod_two_eq_zero_or_one i with h | h <;> (simp [h]; try ring)

/-- `_gtin_checksum_ok` agrees with the spec-worded GS1 algorithm on every
string. -/
theorem gtin_matches_spec (s : String) : _gtin_checksum_ok s = gs1SpecValid s := by
  unfold _gtin_checksum_ok gs1SpecValid
  by_cases h : (s.data.filter Char.isDigit).length = 8 ∨
      (s.data.filter Char.isDigit).length = 12 ∨
      (s.data.filter Char.isDigit).length = 13 ∨
      (s.data.filter Char.isDigit).length = 14
  · simp only [if_pos h, decide_eq_true_eq, h]
    cases hrev : ((s.data.filter Char.isDigit).map charDigit).reverse with
    | nil => simp
    | cons c tl =>
      have h1 : gtinSum 1 tl = gs1AltSum true tl := by
        have := gtinSum_eq_alt tl 1
        norm_num at this
        exact this
      simp [h1]
  · simp [h]

-- ===========================================================
-- Helper lemmas: issue structure of the validator
-- ===========================================================

theorem sev_reqBlock (idx : Nat) (rid : String) (r : List (String × String))
    (code suffix : String) :
    ∀ fields, ∀ i ∈ reqBlock idx rid r code suffix fields, i.severity = "error" := by
  intro fields
  induction fields with
  | nil => intro i hi; simp [reqBlock] at hi
  | cons f t ih =>
    intro i hi
    unfold reqBlock at hi
    rw [List.mem_append] at hi
    rcases hi with hi | hi
    · unfold reqCheck at hi
      split at hi <;> simp_all [_push_issue]
    · exact ih i hi


theorem sev_rowIssues (profile : String) (idx : Nat) (r : List (String × String)) :
    ∀ i ∈ rowIssues profile idx r, i.severity = "error" ∨ i.severity = "warning" := by
  intro i hi
  unfold rowIssues at hi
  simp only [List.mem_append, List.mem_ite_nil_right] at hi
  rcases hi with
    (((((((⟨_, hi⟩ | ⟨_, hi⟩) | ⟨_, hi⟩) | hi) | hi) | hi) | hi) | ⟨_, hi⟩) | ⟨_, hi⟩
  · exact Or.inl (sev_reqBlock _ _ _ _ _ _ i hi)
  · exact Or.inl (sev_reqBlock _ _ _ _ _ _ i hi)
  · exact Or.inl (sev_reqBlock _ _ _ _ _ _ i hi)
  · unfold priceIssues at hi; split at hi <;> simp_all [_push_issue]
  · unfold availEnumIssues at hi; split at hi <;> simp_all [_push_issue]
  · unfold preorderIssues at hi
    dsimp only [] at hi
    split at hi
    · split at hi <;> simp_all [_push_issue]
    · simp at hi
  · unfold gtinIssues at hi
    dsimp only [] at hi
    split at hi
    · split at hi <;> simp_all [_push_issue]
    · split at hi <;> simp_all [_push_issue]
  · unfold apparelEnumIssues at hi
    dsimp only [] at hi
    rw [List.mem_append] at hi
    rcases hi with hi | hi
    · split at hi <;> simp_all [_push_issue]
    · split at hi <;> simp_all [_push_issue]
  · unfold quantityIssues at hi
    split at hi <;> simp_all [_push_issue]


theorem sev_allIssuesCore (profiles : List (String × List String)) (h : List String)
    (r : List (List (String × String))) (q : String) :
    ∀ i ∈ allIssuesCore profiles h r q, i.severity = "error" ∨ i.severity = "warning" := by
  intro i hi
  unfold allIssuesCore at hi
  rw [List.mem_append] at hi
  rcases hi with hi | hi
  · rw [List.mem_map] at hi
    obtain ⟨b, _, rfl⟩ := hi
    exact Or.inl rfl
  · rw [List.mem_flatten] at hi
    obtain ⟨l, hl, hil⟩ := hi
    rw [List.mem_map] at hl
    obtain ⟨pr, _, rfl⟩ := hl
    exact sev_rowIssues q pr.1 pr.2 i hil


theorem rid_reqBlock (idx : Nat) (rid : String) (r : List (String × String))
    (code suffix : String) :
    ∀ fields, ∀ i ∈ reqBlock idx rid r code suffix fields, i.row_index = some idx := by
  intro fields
  induction fields with
  | nil => intro i hi; simp [reqBlock] at hi
  | cons f t ih =>
    intro i hi
    unfold reqBlock at hi
    rw [List.mem_append] at hi
    rcases hi with hi | hi
    · unfold reqCheck at hi
      split at hi <;> simp_all [_push_issue]
    · exact ih i hi


theorem rid_rowIssues (profile : String) (idx : Nat) (r : List (String × String)) :
    ∀ i ∈ rowIssues profile idx r, i.row_index = some idx := by
  intro i hi
  unfold rowIssues at hi
  simp only [List.mem_append, List.mem_ite_nil_right] at hi
  rcases hi with
    (((((((⟨_, hi⟩ | ⟨_, hi⟩) | ⟨_, hi⟩) | hi) | hi) | hi) | hi) | ⟨_, hi⟩) | ⟨_, hi⟩
  · exact rid_reqBlock _ _ _ _ _ _ i hi
  · exact rid_reqBlock _ _ _ _ _ _ i hi
  · exact rid_reqBlock _ _ _ _ _ _ i hi
  · unfold priceIssues at hi; split at hi <;> simp_all [_push_issue]
  · unfold availEnumIssues at hi; split at hi <;> simp_all [_push_issue]
  · unfold preorderIssues at hi
    dsimp only [] at hi
    split at hi
    · split at hi <;> simp_all [_push_issue]
    · simp at hi
  · unfold gtinIssues at hi
    dsimp only [] at hi
    split at hi
    · split at hi <;> simp_all [_push_issue]
    · split at hi <;> simp_all [_push_issue]
  · unfold apparelEnumIssues at hi
    dsimp only [] at hi
    rw [List.mem_append] at hi
    rcases hi with hi | hi
    · split at hi <;> simp_all [_push_issue]
    · split at hi <;> simp_all [_push_issue]
  · unfold quantityIssues at hi
    split at hi <;> simp_all [_push_issue]


theorem row_index_bound (profiles : List (String × List String)) (h : List String)
    (r : List (List (String × String))) (q : String) :
    ∀ i ∈ allIssuesCore profiles h r q, ∀ n, i.row_index = some n → n = 0 ∨ n < r.length := by
  intro i hi n hn
  unfold allIssuesCore at hi
  rw [List.mem_append] at hi
  rcases hi with hi | hi
  · rw [List.mem_map] at hi
    obtain ⟨b, _, rfl⟩ := hi
    left
    simpa [headerIssue, _push_issue] using hn.symm
  · rw [List.mem_flatten] at hi
    obtain ⟨l, hl, hil⟩ := hi
    rw [List.mem_map] at hl
    obtain ⟨⟨a, rec⟩, hpr, rfl⟩ := hl
    right
    have ha := (List.mem_enum hpr).1
    have hra := rid_rowIssues q a rec i hil
    rw [hra] at hn
    have : a = n := by simpa using hn
    exact this ▸ ha


theorem uniqueErrorRows_le (profiles : List (String × List String)) (h : List String)
    (r : List (List (String × String))) (p : String) (hr : r ≠ []) :
    uniqueErrorRows (allIssues profiles h r p) ≤ r.length := by
  unfold uniqueErrorRows
  rw [← List.card_toFinset]
  have hsub : ((allIssues profiles h r p).filterMap
      (fun i => if i.severity == "error" then i.row_index else none)).toFinset ⊆
      Finset.range r.length := by
    intro n hn
    rw [List.mem_toFinset, List.mem_filterMap] at hn
    obtain ⟨i, hi, hpick⟩ := hn
    have hri : i.row_index = some n := by
      by_cases hs : i.severity == "error"
      · simpa [hs] using hpick
      · simp [hs] at hpick
    rw [Finset.mem_range]
    rcases row_index_bound profiles h r (resolveProfile p) i hi n hri with h0 | hlt
    · subst h0
      exact List.length_pos.mpr hr
    · exact hlt
  have := Finset.card_le_card hsub
  rwa [Finset.card_range] at this


theorem passRate_eq_round (t u : Nat) (ht : t ≠ 0) (hu : u ≤ t) :
    passRate t u = ((round ((((t : ℚ) - u) / t) * 10000) : ℤ) : ℚ) / 10000 := by
  unfold passRate
  rw [if_neg ht, round_eq]
  have h1 : (((t : ℚ) - u) / t) * 10000 + 1 / 2 =
      ((20000 * (t - u) + t : ℕ) : ℚ) / ((2 * t : ℕ) : ℚ) := by
    have htq : (t : ℚ) ≠ 0 := by exact_mod_cast ht
    push_cast [Nat.cast_sub hu]
    field_simp
    ring
  rw [h1, Rat.mkRat_eq_div, Rat.floor_natCast_div_natCast]
  norm_num


theorem passRate_all_clean (t : Nat) (ht : t ≠ 0) : passRate t 0 = 1 := by
  unfold passRate
  rw [if_neg ht]
  have hdiv : (20000 * (t - 0) + t) / (2 * t) = 10000 := by
    apply Nat.div_eq_of_lt_le <;> omega
  rw [hdiv]
  decide


theorem uniqueErrorRows_of_no_error (issues : List Issue)
    (hz : countSeverity "error" issues = 0) : uniqueErrorRows issues = 0 := by
  unfold uniqueErrorRows
  unfold countSeverity at hz
  rw [List.countP_eq_zero] at hz
  have : issues.filterMap (fun i => if i.severity == "error" then i.row_index else none) = [] := by
    rw [List.filterMap_eq_nil_iff]
    intro i hi
    simp [hz i hi]
  rw [this]
  rfl


theorem rowIssues_unknown (q : String) (hg : q ≠ "general") (ha : q ≠ "apparel")
    (hl : q ≠ "local_inventory") (idx : Nat) (r : List (String × String)) :
    rowIssues q idx r = genericRowIssues idx r := by
  unfold rowIssues genericRowIssues
  simp [hg, ha, hl]


theorem avf_reqBlock (idx : Nat) (rid : String) (r : List (String × String))
    (code suffix : String) :
    ∀ fields, (∀ f ∈ fields, f ≠ "availability_date") →
      (reqBlock idx rid r code suffix fields).filter
        (fun i => i.field == "availability_date") = [] := by
  intro fields
  induction fields with
  | nil => intro _; rfl
  | cons f t ih =>
    intro hf
    unfold reqBlock
    rw [List.filter_append]
    rw [ih (fun g hg => hf g (List.mem_cons_of_mem f hg))]
    unfold reqCheck
    have hne : f ≠ "availability_date" := hf f (List.mem_cons_self f t)
    split
    · simp [_push_issue, hne]
    · rfl


theorem avfilter_rowIssues (profile : String) (idx : Nat) (r : List (String × String)) :
    (rowIssues profile idx r).filter (fun i => i.field == "availability_date") =
      preorderIssues idx (recGet r "id") (pyLower (recGet r "availability")) r := by
  unfold rowIssues
  simp only [List.filter_append]
  have h1 : ∀ (P : Prop) [Decidable P] (l : List Issue),
      (if P then l else []).filter (fun i => i.field == "availability_date") =
        if P then l.filter (fun i => i.field == "availability_date") else [] := by
    intro P _ l
    split <;> rfl
  rw [h1, h1, h1, h1, h1]
  rw [avf_reqBlock idx _ r _ _ _ (by decide), avf_reqBlock idx _ r _ _ _ (by decide),
    avf_reqBlock idx _ r _ _ _ (by decide)]
  have hprice : (priceIssues idx (recGet r "id") r).filter
      (fun i => i.field == "availability_date") = [] := by
    unfold priceIssues
    split
    · simp [_push_issue]
    · rfl
  have havail : (availEnumIssues idx (recGet r "id") (pyLower (recGet r "availability"))).filter
      (fun i => i.field == "availability_date") = [] := by
    unfold availEnumIssues
    split
    · simp [_push_issue]
    · rfl
  have hgtin : (gtinIssues idx (recGet r "id") r).filter
      (fun i => i.field == "availability_date") = [] := by
    unfold gtinIssues
    dsimp only []
    split
    · split
      · simp [_push_issue]
      · rfl
    · split
      · simp [_push_issue]
      · rfl
  have happ : (apparelEnumIssues idx (recGet r "id") r).filter
      (fun i => i.field == "availability_date") = [] := by
    unfold apparelEnumIssues
    dsimp only []
    rw [List.filter_append, h1, h1]
    split
    · split
      · simp [_push_issue]
      · simp [_push_issue]
    · split
      · simp [_push_issue]
      · simp [_push_issue]
  have hq : (quantityIssues idx (recGet r "id") r).filter
      (fun i => i.field == "availability_date") = [] := by
    unfold quantityIssues
    split
    · simp [_push_issue]
    · rfl
  have hpre : (preorderIssues idx (recGet r "id") (pyLower (recGet r "availability")) r).filter
      (fun i => i.field == "availability_date") =
      preorderIssues idx (recGet r "id") (pyLower (recGet r "availability")) r := by
    unfold preorderIssues
    dsimp only []
    split
    · split
      · simp [_push_issue]
      · rfl
    · rfl
  rw [hprice, havail, hgtin, happ, hq, hpre]
  simp


-- ===========================================================
-- Helper lemmas: normalization (for the idempotence claim)
-- ===========================================================

theorem upperLower_values_not_keys :
    ∀ pr ∈ UPPER_LOWER, UPPER_LOWER.find? (fun q => q.1 == pr.2) = none := by decide

theorem upperLower_values_not_space : ∀ pr ∈ UPPER_LOWER, pyIsSpace pr.2 = false := by decide

theorem pyLowerChar_of_find?_none (c : Char)
    (h : UPPER_LOWER.find? (fun p => p.1 == c) = none) : pyLowerChar c = c := by
  unfold pyLowerChar
  rw [h]
  rfl

theorem pyLowerChar_notKey (c : Char) :
    UPPER_LOWER.find? (fun p => p.1 == pyLowerChar c) = none := by
  cases hf : UPPER_LOWER.find? (fun p => p.1 == c) with
  | none => rw [pyLowerChar_of_find?_none c hf]; exact hf
  | some pr =>
    have hv : pyLowerChar c = pr.2 := by unfold pyLowerChar; rw [hf]; rfl
    rw [hv]
    exact upperLower_values_not_keys pr (List.mem_of_find?_eq_some hf)

theorem pyLowerChar_space (c : Char) (h : pyIsSpace (pyLowerChar c) = true) :
    pyIsSpace c = true := by
  cases hf : UPPER_LOWER.find? (fun p => p.1 == c) with
  | none => rwa [pyLowerChar_of_find?_none c hf] at h
  | some pr =>
    have hv : pyLowerChar c = pr.2 := by unfold pyLowerChar; rw [hf]; rfl
    rw [hv, upperLower_values_not_space pr (List.mem_of_find?_eq_some hf)] at h
    exact absurd h (by simp)

theorem replace1_space (a b c : Char) (hb : pyIsSpace b = false)
    (h : pyIsSpace (replace1 a b c) = true) : pyIsSpace c = true := by
  unfold replace1 at h
  split at h
  · rw [hb] at h; exact absurd h (by simp)
  · exact h

theorem replace1_ne_self (a b c : Char) (hab : b ≠ a) : replace1 a b c ≠ a := by
  unfold replace1
  split
  · exact hab
  · assumption

theorem replace1_preserve_ne (a b c x : Char) (hb : b ≠ x) (hc : c ≠ x) :
    replace1 a b c ≠ x := by
  unfold replace1
  split
  · exact hb
  · exact hc

theorem replace1_fix (a b c : Char) (h : c ≠ a) : replace1 a b c = c := by
  unfold replace1
  rw [if_neg h]

theorem replace1_notKey (a b c : Char)
    (hbk : UPPER_LOWER.find? (fun p => p.1 == b) = none)
    (hck : UPPER_LOWER.find? (fun p => p.1 == c) = none) :
    UPPER_LOWER.find? (fun p => p.1 == replace1 a b c) = none := by
  unfold replace1
  split
  · exact hbk
  · exact hck

-- ===== dropTrailing lemmas =====

theorem length_dropTrailing_le (p : Char → Bool) (l : List Char) :
    (dropTrailing p l).length ≤ l.length := by
  induction l with
  | nil => simp [dropTrailing]
  | cons c t ih =>
    unfold dropTrailing
    split
    · simp
    · simpa using ih

theorem dropTrailing_cons (p : Char → Bool) (c : Char) (t : List Char) :
    dropTrailing p (c :: t) =
      if dropTrailing p t = [] ∧ p c then [] else c :: dropTrailing p t := rfl

theorem dropTrailing_idempotent (p : Char → Bool) (l : List Char) :
    dropTrailing p (dropTrailing p l) = dropTrailing p l := by
  induction l with
  | nil => rfl
  | cons c t ih =>
    rw [dropTrailing_cons]
    by_cases hcond : dropTrailing p t = [] ∧ p c
    · rw [if_pos hcond]
      rfl
    · rw [if_neg hcond, dropTrailing_cons, ih, if_neg hcond]

theorem dropTrailing_eq_self_of_length (p : Char → Bool) (l : List Char)
    (h : (dropTrailing p l).length = l.length) : dropTrailing p l = l := by
  induction l with
  | nil => rfl
  | cons c t ih =>
    unfold dropTrailing at h ⊢
    split at h
    · simp at h
    · rename_i hcond
      simp only [List.length_cons, Nat.add_right_cancel_iff] at h
      rw [if_neg hcond, ih h]

theorem dropTrailing_map (p : Char → Bool) (f : Char → Char)
    (hf : ∀ c, p (f c) = true → p c = true) (l : List Char)
    (h : dropTrailing p l = l) : dropTrailing p (l.map f) = l.map f := by
  induction l with
  | nil => rfl
  | cons c t ih =>
    rw [List.map_cons]
    unfold dropTrailing at h ⊢
    split at h
    · exact absurd h (by simp)
    · rename_i hcond
      rw [List.cons.injEq] at h
      have ht : dropTrailing p t = t := h.2
      rw [ih ht]
      rw [ht] at hcond
      rw [if_neg]
      intro hc
      rw [List.map_eq_nil_iff] at hc
      exact hcond ⟨hc.1, hf c hc.2⟩

-- ===== dropWhile lemmas =====

theorem length_dropWhile_le (p : Char → Bool) (l : List Char) :
    (l.dropWhile p).length ≤ l.length := by
  induction l with
  | nil => simp
  | cons c t ih =>
    rw [List.dropWhile_cons]
    split
    · exact Nat.le_succ_of_le ih
    · simp

theorem dropWhile_eq_self_of_length (p : Char → Bool) (l : List Char)
    (h : (l.dropWhile p).length = l.length) : l.dropWhile p = l := by
  cases l with
  | nil => rfl
  | cons c t =>
    rw [List.dropWhile_cons] at h ⊢
    split at h
    · have := length_dropWhile_le p t
      simp at h
      omega
    · rename_i hc
      rw [if_neg hc]

theorem dropWhile_eq_self_of_head? (p : Char → Bool) (l : List Char)
    (h : ∀ c, l.head? = some c → p c = false) : l.dropWhile p = l := by
  cases l with
  | nil => rfl
  | cons c t =>
    rw [List.dropWhile_cons, if_neg]
    simp [h c rfl]

theorem head_not_of_dropWhile_eq_self (p : Char → Bool) (l : List Char)
    (h : l.dropWhile p = l) : ∀ c, l.head? = some c → p c = false := by
  intro c hc
  cases l with
  | nil => simp at hc
  | cons x t =>
    rw [List.head?_cons, Option.some.injEq] at hc
    subst hc
    rw [List.dropWhile_cons] at h
    by_cases hp : p x
    · rw [if_pos hp] at h
      have := length_dropWhile_le p t
      have hlen := congrArg List.length h
      simp at hlen
      omega
    · simpa using hp

theorem dropTrailing_head? (p : Char → Bool) (l : List Char) :
    dropTrailing p l = [] ∨ (dropTrailing p l).head? = l.head? := by
  cases l with
  | nil => exact Or.inl rfl
  | cons c t =>
    rw [dropTrailing_cons]
    split
    · exact Or.inl rfl
    · right
      rfl

-- ===== stripChars lemmas =====

theorem stripChars_idempotent (l : List Char) :
    stripChars (stripChars l) = stripChars l := by
  unfold stripChars
  have h1 : (dropTrailing pyIsSpace (l.dropWhile pyIsSpace)).dropWhile pyIsSpace =
      dropTrailing pyIsSpace (l.dropWhile pyIsSpace) := by
    apply dropWhile_eq_self_of_head?
    intro c hc
    rcases dropTrailing_head? pyIsSpace (l.dropWhile pyIsSpace) with h | h
    · rw [h] at hc
      simp at hc
    · rw [h] at hc
      exact head_not_of_dropWhile_eq_self pyIsSpace _ (List.dropWhile_idempotent _ _) c hc
  rw [h1, dropTrailing_idempotent]

theorem stripChars_parts (l : List Char) (h : stripChars l = l) :
    l.dropWhile pyIsSpace = l ∧ dropTrailing pyIsSpace l = l := by
  unfold stripChars at h
  have hlen1 : (l.dropWhile pyIsSpace).length ≤ l.length := length_dropWhile_le _ _
  have hlen2 : (dropTrailing pyIsSpace (l.dropWhile pyIsSpace)).length ≤
      (l.dropWhile pyIsSpace).length := length_dropTrailing_le _ _
  have hlen3 : (dropTrailing pyIsSpace (l.dropWhile pyIsSpace)).length = l.length := by
    rw [h]
  have hdw : l.dropWhile pyIsSpace = l := dropWhile_eq_self_of_length _ _ (by omega)
  rw [hdw] at h
  exact ⟨hdw, h⟩

theorem stripChars_map (f : Char → Char)
    (hf : ∀ c, pyIsSpace (f c) = true → pyIsSpace c = true) (l : List Char)
    (h : stripChars l = l) : stripChars (l.map f) = l.map f := by
  obtain ⟨hdw, hdt⟩ := stripChars_parts l h
  unfold stripChars
  have h1 : (l.map f).dropWhile pyIsSpace = l.map f := by
    apply dropWhile_eq_self_of_head?
    intro c hc
    cases l with
    | nil => simp at hc
    | cons x t =>
      rw [List.map_cons, List.head?_cons, Option.some.injEq] at hc
      subst hc
      have hx := head_not_of_dropWhile_eq_self pyIsSpace _ hdw x rfl
      by_cases hfx : pyIsSpace (f x)
      · rw [hf x hfx] at hx
        exact absurd hx (by simp)
      · simpa using hfx
  rw [h1]
  exact dropTrailing_map pyIsSpace f hf l hdt

theorem map_fix (f : Char → Char) (l : List Char) (h : ∀ c ∈ l, f c = c) :
    l.map f = l := (List.map_congr_left h).trans l.map_id

-- ===== headerKey and normalize_key =====

theorem headerKey_data (k : String) :
    (headerKey k).data =
      (stripChars k.data).map
        (fun c => replace1 ' ' '_' (replace1 '-' '_' (pyLowerChar c))) := by
  show ((((stripChars k.data).map pyLowerChar).map (replace1 '-' '_')).map
      (replace1 ' ' '_')) = _
  rw [List.map_map, List.map_map]
  rfl

theorem underscore_not_key : UPPER_LOWER.find? (fun p => p.1 == '_') = none := by decide

theorem headerKey_char_notKey (c : Char) :
    UPPER_LOWER.find? (fun p =>
      p.1 == replace1 ' ' '_' (replace1 '-' '_' (pyLowerChar c))) = none := by
  apply replace1_notKey _ _ _ underscore_not_key
  apply replace1_notKey _ _ _ underscore_not_key
  exact pyLowerChar_notKey c

theorem headerKey_idempotent (k : String) : headerKey (headerKey k) = headerKey k := by
  have hdata : (headerKey (headerKey k)).data = (headerKey k).data := by
    rw [headerKey_data (headerKey k), headerKey_data k]
    have hX : stripChars (stripChars k.data) = stripChars k.data := stripChars_idempotent _
    have hstrip : stripChars ((stripChars k.data).map
        (fun c => replace1 ' ' '_' (replace1 '-' '_' (pyLowerChar c)))) =
        (stripChars k.data).map (fun c => replace1 ' ' '_' (replace1 '-' '_' (pyLowerChar c))) := by
      apply stripChars_map
      · intro c hsp
        apply pyLowerChar_space
        apply replace1_space '-' '_' _ (by decide)
        apply replace1_space ' ' '_' _ (by decide)
        exact hsp
      · exact hX
    rw [hstrip]
    apply map_fix
    intro c hc
    rw [List.mem_map] at hc
    obtain ⟨x, _, rfl⟩ := hc
    have hlow : pyLowerChar (replace1 ' ' '_' (replace1 '-' '_' (pyLowerChar x))) =
        replace1 ' ' '_' (replace1 '-' '_' (pyLowerChar x)) :=
      pyLowerChar_of_find?_none _ (headerKey_char_notKey x)
    rw [hlow]
    have hrh : replace1 '-' '_' (replace1 ' ' '_' (replace1 '-' '_' (pyLowerChar x))) =
        replace1 ' ' '_' (replace1 '-' '_' (pyLowerChar x)) := by
      apply replace1_fix
      apply replace1_preserve_ne _ _ _ _ (by decide)
      exact replace1_ne_self '-' '_' _ (by decide)
    rw [hrh]
    apply replace1_fix
    exact replace1_ne_self ' ' '_' _ (by decide)
  cases hk : headerKey (headerKey k) with
  | mk d1 =>
    cases hk2 : headerKey k with
    | mk d2 =>
      rw [hk, hk2] at hdata
      simp at hdata
      rw [hdata]

theorem alias_values_fixed : ∀ pr ∈ HEADER_ALIASES, normalize_key pr.2 = pr.2 := by decide

theorem alias_values_not_keys :
    ∀ pr ∈ HEADER_ALIASES, HEADER_ALIASES.find? (fun q => q.1 == pr.2) = none := by decide

theorem normalize_key_idempotent (k : String) :
    normalize_key (normalize_key k) = normalize_key k := by
  cases hf : HEADER_ALIASES.find? (fun p => p.1 == headerKey k) with
  | some pr =>
    have hnk : normalize_key k = pr.2 := by unfold normalize_key; rw [hf]; rfl
    rw [hnk]
    exact alias_values_fixed pr (List.mem_of_find?_eq_some hf)
  | none =>
    have hnk : normalize_key k = headerKey k := by unfold normalize_key; rw [hf]; rfl
    rw [hnk]
    unfold normalize_key
    rw [headerKey_idempotent, hf]
    rfl

theorem normalize_key_not_alias_key (k : String) :
    HEADER_ALIASES.find? (fun p => p.1 == normalize_key k) = none := by
  cases hf : HEADER_ALIASES.find? (fun p => p.1 == headerKey k) with
  | some pr =>
    have hnk : normalize_key k = pr.2 := by unfold normalize_key; rw [hf]; rfl
    rw [hnk]
    exact alias_values_not_keys pr (List.mem_of_find?_eq_some hf)
  | none =>
    have hnk : normalize_key k = headerKey k := by unfold normalize_key; rw [hf]; rfl
    rw [hnk]
    exact hf

-- dict no-op lemma
theorem dictFold_append (l : List (String × String)) :
    ∀ acc : List (String × String),
      (∀ q ∈ l, q.1 ∉ acc.map Prod.fst) → (l.map Prod.fst).Nodup →
      l.foldl (fun d p => dictInsert d p.1 p.2) acc = acc ++ l := by
  induction l with
  | nil => intro acc _ _; simp
  | cons q t ih =>
    intro acc hdisj hnodup
    rw [List.foldl_cons]
    have hnotany : ¬ ((acc.any fun p => p.1 == q.1) = true) := by
      rw [List.any_eq_true]
      rintro ⟨pr, hpr, hpq⟩
      have hq1 : pr.1 = q.1 := beq_iff_eq.mp hpq
      exact hdisj q (List.mem_cons_self q t) (hq1 ▸ List.mem_map_of_mem Prod.fst hpr)
    have hins : dictInsert acc q.1 q.2 = acc ++ [q] := by
      unfold dictInsert
      rw [if_neg hnotany]
    rw [hins]
    rw [List.map_cons, List.nodup_cons] at hnodup
    have hres := ih (acc ++ [q]) ?_ hnodup.2
    · rw [hres, List.append_assoc]
      rfl
    · intro w hw
      rw [List.map_append, List.mem_append]
      rintro (hx | hx)
      · exact hdisj w (List.mem_cons_of_mem q hw) hx
      · simp at hx
        exact hnodup.1 (hx ▸ List.mem_map_of_mem Prod.fst hw)

theorem normalize_record_keys_noop (r : List (String × String))
    (hnodup : (r.map Prod.fst).Nodup)
    (hnorm : ∀ q ∈ r, normalize_key q.1 = q.1) :
    normalize_record_keys r = r := by
  unfold normalize_record_keys dictOfPairs
  have hmap : r.map (fun q => (normalize_key q.1, q.2)) = r := by
    have := List.map_congr_left (l := r) (f := fun q => (normalize_key q.1, q.2)) (g := id)
      (fun q hq => by show (normalize_key q.1, q.2) = q; rw [hnorm q hq])
    rw [this, List.map_id]
  rw [hmap]
  have := dictFold_append r [] (by intro q _ h; simp at h) hnodup
  simpa using this

-- ===========================================================
-- Claim C1
-- ===========================================================

/-- C1 counterexample: on a single-row feed whose row carries seven
error-severity issues, `items_with_errors` is 7 (total error issues), while
the number of distinct rows with at least one error is 1 — so the summary
fields are not row-distinct counts. -/
theorem C1_counterexample :
    (validate_gmc_bytes GMC_PROFILES_model [] [onlyIdRec] "general").summary.items_with_errors
      = 7 ∧
    rowsWithSeverity "error" (allIssues GMC_PROFILES_model [] [onlyIdRec] "general") = 1 ∧
    (7 : Nat) ≠ 1 := by decide

/-- C1 (amended): the per-severity summary fields `items_with_errors`,
`items_with_warnings` and `items_with_opportunities` are the total numbers of
issues of that severity (main.py lines 330-332), not distinct-row counts;
only `pass_rate` uses the distinct-row count. -/
theorem C1_amended_ok (profiles : List (String × List String)) (h : List String)
    (r : List (List (String × String))) (p : String) :
    (validate_gmc_bytes profiles h r p).summary.items_with_errors =
      (allIssues profiles h r p).countP (fun i => i.severity == "error") ∧
    (validate_gmc_bytes profiles h r p).summary.items_with_warnings =
      (allIssues profiles h r p).countP (fun i => i.severity == "warning") ∧
    (validate_gmc_bytes profiles h r p).summary.items_with_opportunities =
      (allIssues profiles h r p).countP (fun i => i.severity == "opportunity") :=
  ⟨rfl, rfl, rfl⟩

-- ===========================================================
-- Claim C2
-- ===========================================================

/-- C2: `_gtin_checksum_ok` implements exactly the GS1 check-digit algorithm
as the spec words it (digit filtering, length 8/12/13/14, rightmost check
digit, alternating 3/1 weights from the right starting with 3, expected check
digit `(10 - (sum mod 10)) mod 10`); `"036000291452"` passes, and changing
any single digit of it to a different digit fails. -/
theorem C2_ok :
    (∀ s, _gtin_checksum_ok s = gs1SpecValid s) ∧
    _gtin_checksum_ok "036000291452" = true ∧
    (∀ i : Fin 12, ∀ d : Fin 10,
      flipDigit "036000291452" i.val d.val = "036000291452" ∨
      _gtin_checksum_ok (flipDigit "036000291452" i.val d.val) = false) :=
  ⟨gtin_matches_spec, by decide, by decide⟩

-- ===========================================================
-- Claim C3
-- ===========================================================

/-- C3 counterexample: the unknown profile string `"foo"` does not behave
like the default profile `"general"` on the same input — the reports differ
(for `"foo"` every header is flagged and the required-field checks are
skipped). -/
theorem C3_counterexample :
    validate_gmc_bytes GMC_PROFILES_model ["id"] [onlyIdRec] "foo" ≠
    validate_gmc_bytes GMC_PROFILES_model ["id"] [onlyIdRec] "general" := by decide

/-- C3 (amended): only the empty profile string falls back to `"general"`
(plus trim/lowercase normalization of the string itself); any other
unrecognized profile string is used as-is, producing an empty allowed-header
set (every header flagged) and running only the profile-independent row
checks (price format, availability enum, preorder date, GTIN/brand+mpn) —
a third behaviour distinct from `"general"`. -/
theorem C3_amended_ok :
    (∀ (profiles : List (String × List String)) (h : List String)
        (r : List (List (String × String))),
      validate_gmc_bytes profiles h r "" = validate_gmc_bytes profiles h r "general") ∧
    (∀ (profiles : List (String × List String)) (h : List String)
        (r : List (List (String × String))) (q : String),
      profiles.find? (fun x => x.1 == resolveProfile q) = none →
      resolveProfile q ≠ "general" → resolveProfile q ≠ "apparel" →
      resolveProfile q ≠ "local_inventory" →
      validate_gmc_bytes profiles h r q =
        { summary := mkSummary r.length
            ((h.map (headerIssue (resolveProfile q))) ++
              (r.enum.map (fun x => genericRowIssues x.1 x.2)).flatten)
          issues := ((h.map (headerIssue (resolveProfile q))) ++
              (r.enum.map (fun x => genericRowIssues x.1 x.2)).flatten).take 1000 }) := by
  constructor
  · intro profiles h r
    have he : resolveProfile "" = resolveProfile "general" := by decide
    unfold validate_gmc_bytes allIssues
    rw [he]
  · intro profiles h r q hfind hg ha hl
    have hcore : allIssues profiles h r q =
        (h.map (headerIssue (resolveProfile q))) ++
          (r.enum.map (fun x => genericRowIssues x.1 x.2)).flatten := by
      unfold allIssues allIssuesCore
      congr 1
      · unfold _bad_headers profileFields
        rw [hfind]
        simp [List.filter_eq_self]
      · apply congrArg
        apply List.map_congr_left
        intro pr _
        exact rowIssues_unknown (resolveProfile q) hg ha hl pr.1 pr.2
    unfold validate_gmc_bytes
    rw [hcore]

/-- C3 witness: the amended statement applied to the concrete unknown profile
`"foo"` with one header and one record. -/
theorem C3_witness :
    GMC_PROFILES_model.find? (fun x => x.1 == resolveProfile "foo") = none ∧
    validate_gmc_bytes GMC_PROFILES_model ["id"] [onlyIdRec] "foo" =
      { summary := mkSummary ([onlyIdRec] :
            List (List (String × String))).length
            ((["id"].map (headerIssue (resolveProfile "foo"))) ++
              (([onlyIdRec] : List (List (String × String))).enum.map
                (fun x => genericRowIssues x.1 x.2)).flatten)
        issues := ((["id"].map (headerIssue (resolveProfile "foo"))) ++
              (([onlyIdRec] : List (List (String × String))).enum.map
                (fun x => genericRowIssues x.1 x.2)).flatten).take 1000 } :=
  ⟨by decide,
    C3_amended_ok.2 GMC_PROFILES_model ["id"] [onlyIdRec] "foo"
      (by decide) (by decide) (by decide) (by decide)⟩

-- ===========================================================
-- Claim C4
-- ===========================================================

/-- C4 counterexample: the header-allowlist issue carries `row_index = some 0`
(not a no-row sentinel), and on a feed with one clean row plus one disallowed
header it raises `items_with_errors` from 0 to 1 and drops `pass_rate` from 1
to 0 — row 0 is counted as erroring. -/
theorem C4_counterexample :
    ((validate_gmc_bytes GMC_PROFILES_model ["zzz"] [cleanRec] "general").issues.map
      (fun i => i.row_index)) = [some 0] ∧
    (validate_gmc_bytes GMC_PROFILES_model ["zzz"] [cleanRec]
      "general").summary.items_with_errors = 1 ∧
    (validate_gmc_bytes GMC_PROFILES_model ["zzz"] [cleanRec]
      "general").summary.pass_rate = 0 ∧
    (validate_gmc_bytes GMC_PROFILES_model [] [cleanRec]
      "general").summary.items_with_errors = 0 ∧
    (validate_gmc_bytes GMC_PROFILES_model [] [cleanRec]
      "general").summary.pass_rate = 1 := by decide

/-- C4 (amended): every header-allowlist issue is an error with
`row_index = some 0` (main.py line 256 passes row 0, not a sentinel), and
`items_with_errors` is the number of disallowed headers plus the error count
of the per-row issues — header issues do count toward `items_with_errors`
(and row 0 joins the distinct-error-row set used by `pass_rate`). -/
theorem C4_amended_ok (profiles : List (String × List String)) (h : List String)
    (r : List (List (String × String))) (p : String) :
    (((_bad_headers profiles h (resolveProfile p)).map (headerIssue (resolveProfile p))).all
      (fun i => i.row_index == some 0 && i.severity == "error")) = true ∧
    (validate_gmc_bytes profiles h r p).summary.items_with_errors =
      (_bad_headers profiles h (resolveProfile p)).length +
        countSeverity "error"
          ((r.enum.map (fun x => rowIssues (resolveProfile p) x.1 x.2)).flatten) := by
  constructor
  · rw [List.all_eq_true]
    intro i hi
    rw [List.mem_map] at hi
    obtain ⟨b, _, rfl⟩ := hi
    rfl
  · show countSeverity "error" (allIssues profiles h r p) = _
    unfold allIssues allIssuesCore countSeverity
    rw [List.countP_append]
    congr 1
    rw [List.countP_map]
    have : ((fun i : Issue => i.severity == "error") ∘ headerIssue (resolveProfile p)) =
        fun _ => true := by
      funext b
      rfl
    rw [this, List.countP_true]

-- ===========================================================
-- Claim C5
-- ===========================================================

/-- C5 counterexample: one row with seven error issues gives
`items_total = 1`, `items_with_errors = 7` and `pass_rate = 0.0`, but the
claimed formula `(items_total - items_with_errors) / items_total` rounded to
4 places evaluates to -6 — the formula does not hold with
`items_with_errors` in it. -/
theorem C5_counterexample :
    (validate_gmc_bytes GMC_PROFILES_model [] [onlyIdRec] "general").summary.items_total = 1 ∧
    (validate_gmc_bytes GMC_PROFILES_model [] [onlyIdRec]
      "general").summary.items_with_errors = 7 ∧
    (validate_gmc_bytes GMC_PROFILES_model [] [onlyIdRec] "general").summary.pass_rate = 0 ∧
    (validate_gmc_bytes GMC_PROFILES_model [] [onlyIdRec] "general").summary.pass_rate ≠
      ((round ((((1 : ℚ) - 7) / 1) * 10000) : ℤ) : ℚ) / 10000 := by
  refine ⟨by decide, by decide, by decide, ?_⟩
  have h0 : (validate_gmc_bytes GMC_PROFILES_model [] [onlyIdRec]
      "general").summary.pass_rate = 0 := by decide
  rw [h0]
  have h : (((1 : ℚ) - 7) / 1) * 10000 = ((-60000 : ℤ) : ℚ) := by norm_num
  rw [h, round_intCast]
  norm_num

/-- C5 (amended): `pass_rate` is `(items_total - D) / items_total` rounded to
4 decimal places where `D` is the number of DISTINCT `row_index` values among
error issues (including the pseudo-row 0 of header issues), not
`items_with_errors`; it is 0.0 when `items_total = 0`, and 1.0 when there are
rows and no error issue at all. -/
theorem C5_amended_ok (profiles : List (String × List String)) (h : List String)
    (r : List (List (String × String))) (p : String) :
    ((validate_gmc_bytes profiles h r p).summary.pass_rate =
      if r.length = 0 then 0
      else ((round ((((r.length : ℚ) -
          uniqueErrorRows (allIssues profiles h r p)) / r.length) * 10000) : ℤ) : ℚ)
        / 10000) ∧
    (r = [] → (validate_gmc_bytes profiles h r p).summary.pass_rate = 0) ∧
    (countSeverity "error" (allIssues profiles h r p) = 0 → r ≠ [] →
      (validate_gmc_bytes profiles h r p).summary.pass_rate = 1) := by
  refine ⟨?_, ?_, ?_⟩
  · show passRate r.length (uniqueErrorRows (allIssues profiles h r p)) = _
    by_cases hr : r.length = 0
    · rw [if_pos hr]
      unfold passRate
      rw [if_pos hr]
    · rw [if_neg hr]
      apply passRate_eq_round _ _ hr
      apply uniqueErrorRows_le
      exact fun hnil => hr (by rw [hnil]; rfl)
  · intro hnil
    show passRate r.length (uniqueErrorRows (allIssues profiles h r p)) = 0
    subst hnil
    rfl
  · intro hz hnil
    show passRate r.length (uniqueErrorRows (allIssues profiles h r p)) = 1
    rw [uniqueErrorRows_of_no_error _ hz]
    apply passRate_all_clean
    exact fun h0 => hnil (List.length_eq_zero.mp h0)

/-- C5 witness: the amended statement applied at a clean one-row feed
(pass rate 1.0) and at the empty feed (pass rate 0.0). -/
theorem C5_witness :
    countSeverity "error" (allIssues GMC_PROFILES_model [] [cleanRec] "general") = 0 ∧
    (validate_gmc_bytes GMC_PROFILES_model [] [cleanRec] "general").summary.pass_rate = 1 ∧
    (validate_gmc_bytes GMC_PROFILES_model [] ([] : List (List (String × String)))
      "general").summary.pass_rate = 0 :=
  ⟨by decide,
    (C5_amended_ok GMC_PROFILES_model [] [cleanRec] "general").2.2 (by decide)
      (by decide),
    (C5_amended_ok GMC_PROFILES_model [] [] "general").2.1 rfl⟩

-- ===========================================================
-- Claim C6
-- ===========================================================

/-- C6 counterexample: a header list containing the same disallowed header
twice yields two identical `Issue` entries — the returned list is not
deduplicated by `(row, field, message, severity)`. -/
theorem C6_counterexample :
    (validate_gmc_bytes GMC_PROFILES_model ["zzz", "zzz"] [] "general").issues =
      [headerIssue "general" "zzz", headerIssue "general" "zzz"] ∧
    ¬ (validate_gmc_bytes GMC_PROFILES_model ["zzz", "zzz"] [] "general").issues.Pairwise
        (fun a b => ¬ (a.row_index = b.row_index ∧ a.field = b.field ∧
          a.message = b.message ∧ a.severity = b.severity)) := by decide

/-- C6 (amended): no deduplication is performed anywhere — the issue list is
the plain concatenation of emissions in order, so a disallowed header
occurring at least twice in the header list yields at least two identical
issues. -/
theorem C6_amended_ok (profiles : List (String × List String)) (p : String)
    (h : List String) (r : List (List (String × String))) (b : String)
    (hcount : 2 ≤ h.count b)
    (hbad : (profileFields profiles (resolveProfile p)).contains b = false) :
    2 ≤ (allIssues profiles h r p).count (headerIssue (resolveProfile p) b) := by
  unfold allIssues allIssuesCore
  rw [List.count_append]
  have h1 : (_bad_headers profiles h (resolveProfile p)).count b = h.count b := by
    unfold _bad_headers
    apply List.count_filter
    simp only [hbad]
    decide
  have h2 : (_bad_headers profiles h (resolveProfile p)).count b ≤
      ((_bad_headers profiles h (resolveProfile p)).map
        (headerIssue (resolveProfile p))).count (headerIssue (resolveProfile p) b) :=
    List.count_le_count_map _ _ _
  omega

/-- C6 witness: the amended statement applied to the duplicated header
`"zzz"`. -/
theorem C6_witness :
    2 ≤ (["zzz", "zzz"] : List String).count "zzz" ∧
    2 ≤ (allIssues GMC_PROFILES_model ["zzz", "zzz"] [] "general").count
        (headerIssue (resolveProfile "general") "zzz") :=
  ⟨by decide,
    C6_amended_ok GMC_PROFILES_model "general" ["zzz", "zzz"] [] "zzz"
      (by decide) (by decide)⟩

-- ===========================================================
-- Claim C7
-- ===========================================================

/-- C7: the returned issue list is the uncapped issue list truncated to at
most 1000 entries, while the whole summary (all counts and the pass rate) is
computed from the complete uncapped issue list, so the summary is unaffected
by the truncation. -/
theorem C7_ok (profiles : List (String × List String)) (h : List String)
    (r : List (List (String × String))) (p : String) :
    (validate_gmc_bytes profiles h r p).issues.length ≤ 1000 ∧
    (validate_gmc_bytes profiles h r p).issues = (allIssues profiles h r p).take 1000 ∧
    (validate_gmc_bytes profiles h r p).summary = mkSummary r.length (allIssues profiles h r p) :=
  ⟨List.length_take_le _ _, rfl, rfl⟩

-- ===========================================================
-- Claim C8
-- ===========================================================

/-- C8 counterexample: `"2025-01-01T00:00:00"` matches an ISO-8601 date-time
pattern, yet a preorder record carrying it as `availability_date` still gets
the GMC-211 error — the code accepts plain dates only, not date-times. -/
theorem C8_counterexample :
    specIsoDateTime "2025-01-01T00:00:00" = true ∧
    (allIssues GMC_PROFILES_model [] [preorderDateTimeRec] "general").countP
      (fun i => i.rule_id == "GMC-211") = 1 := by decide

/-- C8 (amended): for a record whose lowercased availability is `preorder`,
an empty `availability_date` yields exactly one issue on field
`availability_date` in that row's checks (the GMC-211 error), and a value
matching the plain ISO date pattern `\d{4}-\d{2}-\d{2}` (dates only — not
date-times) yields none. -/
theorem C8_amended_ok (profile : String) (idx : Nat) (r : List (String × String))
    (hav : pyLower (recGet r "availability") = "preorder") :
    (recGet r "availability_date" = "" →
      (rowIssues profile idx r).filter (fun i => i.field == "availability_date") =
        [_push_issue idx (recGet r "id") "availability_date" "GMC-211" "error"
          "availability_date (ISO 8601) required when availability=preorder." ""]) ∧
    (isoDateMatch (recGet r "availability_date") = true →
      (rowIssues profile idx r).filter (fun i => i.field == "availability_date") = []) := by
  rw [avfilter_rowIssues, hav]
  constructor
  · intro had
    unfold preorderIssues
    rw [if_pos rfl]
    dsimp only []
    rw [had]
    simp
  · intro hmatch
    unfold preorderIssues
    rw [if_pos rfl]
    dsimp only []
    rw [if_neg]
    rintro (h1 | h1)
    · rw [h1] at hmatch
      exact absurd hmatch (by decide)
    · exact h1 hmatch

/-- C8 witness: the amended statement applied to a concrete preorder record
with empty `availability_date`. -/
theorem C8_witness :
    pyLower (recGet [("availability", "preorder")] "availability") = "preorder" ∧
    recGet [("availability", "preorder")] "availability_date" = "" ∧
    (rowIssues "general" 0 [("availability", "preorder")]).filter
      (fun i => i.field == "availability_date") =
      [_push_issue 0 "" "availability_date" "GMC-211" "error"
        "availability_date (ISO 8601) required when availability=preorder." ""] :=
  ⟨by decide, by decide,
    (C8_amended_ok "general" 0 [("availability", "preorder")] (by decide)).1 (by decide)⟩

-- ===========================================================
-- Claim C9
-- ===========================================================

/-- C9: header/record normalization is idempotent — `normalize_key` is a
fixed point on its own output for every string; a record whose keys are
already normalized (and distinct, as in a Python dict) is left unchanged by
`normalize_record_keys`; and no `normalize_key` output is itself an alias-
table key that a second pass would rewrite. -/
theorem C9_ok :
    (∀ k, normalize_key (normalize_key k) = normalize_key k) ∧
    (∀ r : List (String × String), (r.map Prod.fst).Nodup →
      (∀ q ∈ r, normalize_key q.1 = q.1) → normalize_record_keys r = r) ∧
    (∀ k, HEADER_ALIASES.find? (fun p => p.1 == normalize_key k) = none) :=
  ⟨normalize_key_idempotent, normalize_record_keys_noop, normalize_key_not_alias_key⟩

/-- C9 witness: the record part applied to a concrete already-normalized
record. -/
theorem C9_witness :
    (([("id", "x"), ("image_link", "y")] : List (String × String)).map Prod.fst).Nodup ∧
    normalize_record_keys [("id", "x"), ("image_link", "y")] =
      [("id", "x"), ("image_link", "y")] :=
  ⟨by decide, C9_ok.2.1 [("id", "x"), ("image_link", "y")] (by decide)
    (by intro q hq; fin_cases hq <;> rfl)⟩

-- ===========================================================
-- Claim C10
-- ===========================================================

/-- C10: every issue `validate_gmc_bytes` generates has severity `"error"` or
`"warning"` — no code path emits `"opportunity"` — so
`items_with_opportunities` is 0 on every input and profile. -/
theorem C10_ok (profiles : List (String × List String)) (h : List String)
    (r : List (List (String × String))) (p : String) :
    ((allIssues profiles h r p).all
      (fun i => i.severity == "error" || i.severity == "warning")) = true ∧
    (validate_gmc_bytes profiles h r p).summary.items_with_opportunities = 0 := by
  have hs := sev_allIssuesCore profiles h r (resolveProfile p)
  constructor
  · rw [List.all_eq_true]
    intro i hi
    rcases hs i hi with h1 | h1 <;> simp [h1]
  · show countSeverity "opportunity" (allIssues profiles h r p) = 0
    unfold countSeverity
    rw [List.countP_eq_zero]
    intro i hi
    rcases hs i hi with h1 | h1 <;> simp [h1]
